import Mathlib

/-!
Verification of the gh-vars-migrator migration engine.

The Go sources under internal/ are embedded shallowly: the migrator
functions become Lean functions over an explicit client interface, the
GitHub REST client is modelled as a state transformer whose failures are
Except values, and the per-run result accumulator is threaded explicitly.
Functions that return a Go error are modelled with an Option String
component (none = nil error).  The Go wrapping "variable '%s': %w" is
rendered without the surrounding quotes.
-/

namespace GhVarsMigrator

/-- A GitHub Actions variable (internal/types/types.go).  The fields
visibility and selectedRepositoryIDs are Modelled from the spec: the
visibility-aware revision of types.Variable used by org_vars.go is not
under src (src/internal/types/types.go is the pre-visibility revision),
so those two fields follow the spec data model: a visibility string
(all / private / selected) and the selected repository identifiers,
meaningful only when visibility is selected. -/
structure Variable where
  name : String
  value : String
  updatedAt : String := ""
  visibility : String := ""
  selectedRepositoryIDs : List Int := []
deriving Repr, DecidableEq

/-- MigrationResult (internal/types/types.go): counters plus the failure
list; Go errors are modelled as their message strings. -/
structure MigrationResult where
  created : Nat := 0
  updated : Nat := 0
  skipped : Nat := 0
  errors : List String := []
deriving Repr, DecidableEq

/-- AddError (internal/types/types.go): appends an error to the result. -/
def MigrationResult.addError (r : MigrationResult) (e : String) : MigrationResult :=
  { r with errors := r.errors ++ [e] }

/-- HasErrors (internal/types/types.go). -/
def MigrationResult.hasErrors (r : MigrationResult) : Bool :=
  r.errors.length > 0

/-- Total (internal/types/types.go): created + updated + skipped. -/
def MigrationResult.total (r : MigrationResult) : Nat :=
  r.created + r.updated + r.skipped

/-- MigrationConfig (internal/types/types.go), restricted to the fields the
migration engine reads. -/
structure MigrationConfig where
  sourceOrg : String := ""
  targetOrg : String := ""
  sourceOwner : String := ""
  sourceRepo : String := ""
  targetOwner : String := ""
  targetRepo : String := ""
  skipEnvs : Bool := false
  dryRun : Bool := false
  force : Bool := false
deriving Repr, DecidableEq

/-- A repository as returned by the client repository lookup. -/
structure Repo where
  id : Int
  name : String
deriving Repr, DecidableEq

/-- RateLimitInfo (internal/types/types.go); time is modelled as seconds on
an integer clock. -/
structure RateLimitInfo where
  limit : Int
  remaining : Int
  resetTime : Int
deriving Repr, DecidableEq

/-- One write call issued against a target client, recorded so that the
theorems can talk about which writes a run performed. -/
inductive WriteCall where
  | createOrgVar (org : String) (v : Variable)
  | updateOrgVar (org : String) (v : Variable)
  | createRepoVar (owner repo : String) (v : Variable)
  | updateRepoVar (owner repo : String) (v : Variable)
  | createEnvVar (owner repo env : String) (v : Variable)
  | updateEnvVar (owner repo env : String) (v : Variable)
deriving Repr, DecidableEq

/-- The target-side client operations used by org-to-org migration
(GetOrgVariable, CreateOrgVariable, UpdateOrgVariable, GetRepo of
internal/client/client.go), as a state transformer over an abstract target
state: a read yields a value or an error, a write yields the new state or
an error.  Go returns (pointer, error) with the pointer non-nil exactly
when the error is nil, so Except String Variable is the faithful model of
the get contract. -/
structure OrgTargetClient (σ : Type) where
  getOrgVariable : σ → String → String → Except String Variable
  createOrgVariable : σ → String → Variable → Except String σ
  updateOrgVariable : σ → String → Variable → Except String σ
  getRepo : σ → String → String → Except String Repo

/-- The source-side read used by the visibility resolver
(ListOrgVariableSelectedRepos); source reads do not mutate source state,
so the source client is a pure function of organization and variable
name. -/
structure SourceOrgClient where
  listOrgVariableSelectedRepos : String → String → Except String (List Repo)

/-- migrateOrgVariable (internal/migrator/org_vars.go): reconcile one
organization variable against the target.  Returns the new target state,
the updated result, the write calls issued, and the Go error (none =
nil). -/
def migrateOrgVariable {σ : Type} (cfg : MigrationConfig) (c : OrgTargetClient σ)
    (v : Variable) (st : σ) (result : MigrationResult) :
    σ × MigrationResult × List WriteCall × Option String :=
  match c.getOrgVariable st cfg.targetOrg v.name with
  | .ok _ =>
    if !cfg.force then
      (st, { result with skipped := result.skipped + 1 }, [], none)
    else if cfg.dryRun then
      (st, { result with updated := result.updated + 1 }, [], none)
    else
      match c.updateOrgVariable st cfg.targetOrg v with
      | .error e =>
        (st, result, [WriteCall.updateOrgVar cfg.targetOrg v],
          some ("failed to update: " ++ e))
      | .ok st2 =>
        (st2, { result with updated := result.updated + 1 },
          [WriteCall.updateOrgVar cfg.targetOrg v], none)
  | .error _ =>
    if cfg.dryRun then
      (st, { result with created := result.created + 1 }, [], none)
    else
      match c.createOrgVariable st cfg.targetOrg v with
      | .error e =>
        (st, result, [WriteCall.createOrgVar cfg.targetOrg v],
          some ("failed to create: " ++ e))
      | .ok st2 =>
        (st2, { result with created := result.created + 1 },
          [WriteCall.createOrgVar cfg.targetOrg v], none)

/-- resolveSelectedRepos (internal/migrator/org_vars.go): fetch the selected
repositories of a source variable and look each name up in the target
organization, keeping the target identifiers of the names that match and
silently dropping the rest. -/
def resolveSelectedRepos {σ : Type} (cfg : MigrationConfig) (src : SourceOrgClient)
    (tgt : OrgTargetClient σ) (st : σ) (varName : String) : Except String (List Int) :=
  match src.listOrgVariableSelectedRepos cfg.sourceOrg varName with
  | .error e => .error ("failed to list selected repos from source: " ++ e)
  | .ok sourceRepos =>
    .ok (sourceRepos.filterMap (fun srcRepo =>
      match tgt.getRepo st cfg.targetOrg srcRepo.name with
      | .ok targetRepo => some targetRepo.id
      | .error _ => none))

/-- The per-variable preparation performed inline by migrateOrgToOrg
(internal/migrator/org_vars.go, loop body): default an empty visibility to
all, and for selected visibility resolve the repository selection against
the target, falling back to an empty list when resolution fails. -/
def prepareOrgVariable {σ : Type} (cfg : MigrationConfig) (src : SourceOrgClient)
    (tgt : OrgTargetClient σ) (st : σ) (v : Variable) : Variable :=
  let v1 := if v.visibility == "" then { v with visibility := "all" } else v
  if v1.visibility == "selected" then
    let selectedIDs :=
      match resolveSelectedRepos cfg src tgt st v.name with
      | .ok ids => ids
      | .error _ => []
    { v1 with selectedRepositoryIDs := selectedIDs }
  else v1

/-- The variable loop of migrateOrgToOrg (internal/migrator/org_vars.go):
prepare each variable, reconcile it, and on a per-variable error wrap it
with the variable name and append it to the failure list, then continue
with the remaining variables. -/
def migrateOrgToOrgAux {σ : Type} (cfg : MigrationConfig) (src : SourceOrgClient)
    (tgt : OrgTargetClient σ) :
    List Variable → σ → MigrationResult → List WriteCall →
    σ × MigrationResult × List WriteCall
  | [], st, result, ws => (st, result, ws)
  | v :: rest, st, result, ws =>
    let v2 := prepareOrgVariable cfg src tgt st v
    let step := migrateOrgVariable cfg tgt v2 st result
    let r2 :=
      match step.2.2.2 with
      | some e => step.2.1.addError ("variable " ++ v.name ++ ": " ++ e)
      | none => step.2.1
    migrateOrgToOrgAux cfg src tgt rest step.1 r2 (ws ++ step.2.2.1)

/-- migrateOrgToOrg (internal/migrator/org_vars.go) from the point where the
source listing is in hand: run the variable loop from a fresh result. -/
def migrateOrgToOrg {σ : Type} (cfg : MigrationConfig) (src : SourceOrgClient)
    (tgt : OrgTargetClient σ) (sourceVars : List Variable) (st : σ) :
    σ × MigrationResult × List WriteCall :=
  migrateOrgToOrgAux cfg src tgt sourceVars st {} []

/-- The target-side client operations used by repository variable migration
(GetRepoVariable, CreateRepoVariable, UpdateRepoVariable of
internal/client/client.go). -/
structure RepoTargetClient (σ : Type) where
  getRepoVariable : σ → String → String → String → Except String Variable
  createRepoVariable : σ → String → String → Variable → Except String σ
  updateRepoVariable : σ → String → String → Variable → Except String σ

/-- migrateRepoVariable (internal/migrator/repo_vars.go): reconcile one
repository variable against the target repository. -/
def migrateRepoVariable {σ : Type} (cfg : MigrationConfig) (c : RepoTargetClient σ)
    (v : Variable) (st : σ) (result : MigrationResult) :
    σ × MigrationResult × List WriteCall × Option String :=
  match c.getRepoVariable st cfg.targetOwner cfg.targetRepo v.name with
  | .ok _ =>
    if !cfg.force then
      (st, { result with skipped := result.skipped + 1 }, [], none)
    else if cfg.dryRun then
      (st, { result with updated := result.updated + 1 }, [], none)
    else
      match c.updateRepoVariable st cfg.targetOwner cfg.targetRepo v with
      | .error e =>
        (st, result, [WriteCall.updateRepoVar cfg.targetOwner cfg.targetRepo v],
          some ("failed to update: " ++ e))
      | .ok st2 =>
        (st2, { result with updated := result.updated + 1 },
          [WriteCall.updateRepoVar cfg.targetOwner cfg.targetRepo v], none)
  | .error _ =>
    if cfg.dryRun then
      (st, { result with created := result.created + 1 }, [], none)
    else
      match c.createRepoVariable st cfg.targetOwner cfg.targetRepo v with
      | .error e =>
        (st, result, [WriteCall.createRepoVar cfg.targetOwner cfg.targetRepo v],
          some ("failed to create: " ++ e))
      | .ok st2 =>
        (st2, { result with created := result.created + 1 },
          [WriteCall.createRepoVar cfg.targetOwner cfg.targetRepo v], none)

/-- The loop of migrateRepoVariables (internal/migrator/repo_vars.go):
reconcile each variable, wrapping a per-variable error with the variable
name, and continue with the rest. -/
def migrateRepoVariablesAux {σ : Type} (cfg : MigrationConfig)
    (c : RepoTargetClient σ) :
    List Variable → σ → MigrationResult → List WriteCall →
    σ × MigrationResult × List WriteCall
  | [], st, result, ws => (st, result, ws)
  | v :: rest, st, result, ws =>
    let step := migrateRepoVariable cfg c v st result
    let r2 :=
      match step.2.2.2 with
      | some e => step.2.1.addError ("variable " ++ v.name ++ ": " ++ e)
      | none => step.2.1
    migrateRepoVariablesAux cfg c rest step.1 r2 (ws ++ step.2.2.1)

/-- migrateRepoVariables (internal/migrator/repo_vars.go) run from a fresh
result. -/
def migrateRepoVariables {σ : Type} (cfg : MigrationConfig) (c : RepoTargetClient σ)
    (sourceVars : List Variable) (st : σ) : σ × MigrationResult × List WriteCall :=
  migrateRepoVariablesAux cfg c sourceVars st {} []

/-- The target-side client operations used by environment variable
migration (GetEnvVariable, CreateEnvVariable, UpdateEnvVariable of
internal/client/client.go). -/
structure EnvTargetClient (σ : Type) where
  getEnvVariable : σ → String → String → String → String → Except String Variable
  createEnvVariable : σ → String → String → String → Variable → Except String σ
  updateEnvVariable : σ → String → String → String → Variable → Except String σ

/-- migrateEnvVariable (internal/migrator/repo_vars.go): reconcile one
environment variable against the target environment. -/
def migrateEnvVariable {σ : Type} (cfg : MigrationConfig) (c : EnvTargetClient σ)
    (envName : String) (v : Variable) (st : σ) (result : MigrationResult) :
    σ × MigrationResult × List WriteCall × Option String :=
  match c.getEnvVariable st cfg.targetOwner cfg.targetRepo envName v.name with
  | .ok _ =>
    if !cfg.force then
      (st, { result with skipped := result.skipped + 1 }, [], none)
    else if cfg.dryRun then
      (st, { result with updated := result.updated + 1 }, [], none)
    else
      match c.updateEnvVariable st cfg.targetOwner cfg.targetRepo envName v with
      | .error e =>
        (st, result,
          [WriteCall.updateEnvVar cfg.targetOwner cfg.targetRepo envName v],
          some ("failed to update: " ++ e))
      | .ok st2 =>
        (st2, { result with updated := result.updated + 1 },
          [WriteCall.updateEnvVar cfg.targetOwner cfg.targetRepo envName v], none)
  | .error _ =>
    if cfg.dryRun then
      (st, { result with created := result.created + 1 }, [], none)
    else
      match c.createEnvVariable st cfg.targetOwner cfg.targetRepo envName v with
      | .error e =>
        (st, result,
          [WriteCall.createEnvVar cfg.targetOwner cfg.targetRepo envName v],
          some ("failed to create: " ++ e))
      | .ok st2 =>
        (st2, { result with created := result.created + 1 },
          [WriteCall.createEnvVar cfg.targetOwner cfg.targetRepo envName v], none)

/-- Name lookup in a list of variables, the semantic model of a GET on the
conventional variable resource path: the first variable with the given
name. -/
def findVariable (vars : List Variable) (name : String) : Option Variable :=
  vars.find? (fun v => v.name == name)

/-- Name lookup in a list of repositories. -/
def findRepo (repos : List Repo) (name : String) : Option Repo :=
  repos.find? (fun r => r.name == name)

/-- The state of a target organization: its variables and its
repositories. -/
structure OrgState where
  vars : List Variable
  repos : List Repo
deriving Repr, DecidableEq

/-- Modelled from the spec: the request body of the visibility-aware
CreateOrgVariable and UpdateOrgVariable.  src/internal/client/client.go is
the pre-visibility revision (it hardcodes visibility all and sends no
repository list) and cannot be the client org_vars.go compiles against;
per the spec (visibility resolver and data model) the write carries the
variable name, value, its visibility, and its selected repository
identifiers, an explicitly empty array when none matched. -/
def orgVariableBody (v : Variable) : Variable :=
  { name := v.name, value := v.value, visibility := v.visibility,
    selectedRepositoryIDs := v.selectedRepositoryIDs }

/-- The deterministic state-based instance of the org target client: a GET
of an absent resource is an HTTP 404 error, a create appends, an update
rewrites in place, and writes always succeed.  This is the semantic model
of client.go REST calls against a live target organization. -/
def orgStateClient : OrgTargetClient OrgState where
  getOrgVariable st _org name :=
    match findVariable st.vars name with
    | some v => .ok v
    | none => .error "HTTP 404: Not Found"
  createOrgVariable st _org v :=
    .ok { st with vars := st.vars ++ [orgVariableBody v] }
  updateOrgVariable st _org v :=
    .ok { st with vars := st.vars.map (fun w => if w.name == v.name then orgVariableBody v else w) }
  getRepo st _org name :=
    match findRepo st.repos name with
    | some r => .ok r
    | none => .error "HTTP 404: Not Found"

/-- The request body of CreateRepoVariable and UpdateRepoVariable
(internal/client/client.go): name and value only. -/
def repoVariableBody (v : Variable) : Variable :=
  { name := v.name, value := v.value }

/-- The deterministic state-based instance of the repo target client over
the list of target repository variables. -/
def repoStateClient : RepoTargetClient (List Variable) where
  getRepoVariable st _owner _repo name :=
    match findVariable st name with
    | some v => .ok v
    | none => .error "HTTP 404: Not Found"
  createRepoVariable st _owner _repo v :=
    .ok (st ++ [repoVariableBody v])
  updateRepoVariable st _owner _repo v :=
    .ok (st.map (fun w => if w.name == v.name then repoVariableBody v else w))

/-- requiredOrgScopes (internal/client/permissions.go). -/
def requiredOrgScopes : List String := ["admin:org"]

/-- requiredRepoScopes (internal/client/permissions.go). -/
def requiredRepoScopes : List String := ["repo"]

/-- The literal hierarchy map of isParentScope
(internal/client/permissions.go); a missing key yields the empty list,
like a missing Go map key yields nil. -/
def scopeHierarchy (parent : String) : List String :=
  if parent == "admin:org" then ["write:org", "read:org"]
  else if parent == "repo" then ["public_repo", "repo:status", "repo:deployment", "repo:invite"]
  else []

/-- isParentScope (internal/client/permissions.go): parent satisfies
required when required is one of its declared children. -/
def isParentScope (parent required : String) : Bool :=
  (scopeHierarchy parent).any (fun child => child == required)

/-- hasScope (internal/client/permissions.go): a required scope is
satisfied by a verbatim occurrence or by any scope that is its parent. -/
def hasScope (scopes : List String) (required : String) : Bool :=
  scopes.any (fun s => s == required || isParentScope s required)

/-- The first required scope not satisfied by the granted scopes, the
early-return loop of ValidateOrgScopes and ValidateRepoScopes. -/
def firstMissingScope (required scopes : List String) : Option String :=
  required.find? (fun r => !(hasScope scopes r))

/-- ValidateOrgScopes (internal/client/permissions.go): the token scopes
input is the result of GetTokenScopes, none meaning the scopes header was
absent.  Returns the Go error message, none meaning nil. -/
def validateOrgScopes (tokenScopes : Except String (Option (List String)))
    (role : String) : Option String :=
  match tokenScopes with
  | .error e => some ("failed to retrieve " ++ role ++ " token scopes: " ++ e)
  | .ok none => none
  | .ok (some scopes) =>
    match firstMissingScope requiredOrgScopes scopes with
    | some r => some (role ++ " token is missing required scope " ++ r ++
        " for organization variable migration")
    | none => none

/-- ValidateRepoScopes (internal/client/permissions.go). -/
def validateRepoScopes (tokenScopes : Except String (Option (List String)))
    (role : String) : Option String :=
  match tokenScopes with
  | .error e => some ("failed to retrieve " ++ role ++ " token scopes: " ++ e)
  | .ok none => none
  | .ok (some scopes) =>
    match firstMissingScope requiredRepoScopes scopes with
    | some r => some (role ++ " token is missing required scope " ++ r ++
        " for repository variable migration")
    | none => none

/-- The header-parsing tail of GetTokenScopes
(internal/client/client.go): an absent or empty X-OAuth-Scopes header
yields none (nil slice, validation skipped); otherwise split on commas,
trim, and drop empties. -/
def parseScopesHeader (header : String) : Option (List String) :=
  if header == "" then none
  else some (((header.splitOn ",").map (fun s => s.trim)).filter (fun s => !(s == "")))

/-- GetTokenScopes (internal/client/client.go): the request either fails or
yields the X-OAuth-Scopes header value of the response. -/
def getTokenScopes (userResponse : Except String String) :
    Except String (Option (List String)) :=
  match userResponse with
  | .error e => .error ("failed to retrieve token scopes: " ++ e)
  | .ok header => .ok (parseScopesHeader header)

/-- The reserved rate-limit threshold; its value 10 is pinned by the
comment in TestWaitForRateLimit_NearLimit (internal/client/client_test.go). -/
def minRemainingRequests : Int := 10

/-- The small safety buffer in seconds added to the sleep, pinned by the
comment in TestWaitForRateLimit_NearLimit (internal/client/client_test.go). -/
def rateLimitSafetyBuffer : Int := 5

/-- Modelled from the spec: the pre-flight rate-limit throttle
waitForRateLimit, whose implementation is not under src (org_vars.go calls
WaitForRateLimit and internal/client/client_test.go unit-tests
waitForRateLimit, but no implementation file is present).  Returns the
sleep duration, none when no sleep occurs.  The boundary behavior follows
the unit tests of src/internal/client/client_test.go: sleep only when
remaining is strictly below the threshold (TestWaitForRateLimit_AtThreshold
asserts no sleep when remaining equals the threshold) and the reset time
is still in the future (TestWaitForRateLimit_AlreadyReset), and the sleep
runs until the reset time plus the safety buffer
(TestWaitForRateLimit_NearLimit). -/
def waitForRateLimit (rl : RateLimitInfo) (threshold : Int) (now : Int) : Option Int :=
  if rl.remaining < threshold ∧ now < rl.resetTime then
    some (rl.resetTime - now + rateLimitSafetyBuffer)
  else
    none

/-- A source client whose variables have no selected repositories, for runs
whose variables have non-selected visibility. -/
def trivialSourceClient : SourceOrgClient :=
  { listOrgVariableSelectedRepos := fun _ _ => .ok [] }

/-- The source side of the spec scenario: variables A = 1 and B = 2. -/
def scenarioSource : List Variable :=
  [{ name := "A", value := "1" }, { name := "B", value := "2" }]

/-- The target side of the spec scenario: variable A = 0. -/
def scenarioTarget : OrgState :=
  { vars := [{ name := "A", value := "0" }], repos := [] }

/-- The scenario configuration without force. -/
def scenarioConfig : MigrationConfig :=
  { sourceOrg := "source-org", targetOrg := "target-org" }

/-- The scenario configuration with force. -/
def scenarioConfigForce : MigrationConfig :=
  { sourceOrg := "source-org", targetOrg := "target-org", force := true }

/-- The scenario configuration in dry-run mode. -/
def scenarioConfigDry : MigrationConfig :=
  { sourceOrg := "source-org", targetOrg := "target-org", dryRun := true }

/-- A one-variable value used by concrete witnesses. -/
def varA : Variable := { name := "A", value := "1" }

/-- A second variable value used by concrete witnesses. -/
def varB : Variable := { name := "B", value := "2" }

/-- An org target client over a unit state whose reads fail with an
authorization error and whose writes fail, exercising the failure paths. -/
def failingOrgClient : OrgTargetClient Unit where
  getOrgVariable _ _ _ := .error "HTTP 403: Forbidden"
  createOrgVariable _ _ _ := .error "HTTP 502: Bad Gateway"
  updateOrgVariable _ _ _ := .error "HTTP 502: Bad Gateway"
  getRepo _ _ _ := .error "HTTP 404: Not Found"

/-- A repo target client over a unit state whose reads and writes fail. -/
def failingRepoClient : RepoTargetClient Unit where
  getRepoVariable _ _ _ _ := .error "HTTP 403: Forbidden"
  createRepoVariable _ _ _ _ := .error "HTTP 502: Bad Gateway"
  updateRepoVariable _ _ _ _ := .error "HTTP 502: Bad Gateway"

/-- An env target client over a unit state whose reads and writes fail. -/
def failingEnvClient : EnvTargetClient Unit where
  getEnvVariable _ _ _ _ _ := .error "HTTP 403: Forbidden"
  createEnvVariable _ _ _ _ _ := .error "HTTP 502: Bad Gateway"
  updateEnvVariable _ _ _ _ _ := .error "HTTP 502: Bad Gateway"

/-- The source variable of the selected-visibility witness. -/
def selectedVar : Variable :=
  { name := "SELVAR", value := "7", visibility := "selected",
    selectedRepositoryIDs := [11] }

/-- The selected-visibility witness source client: every variable selects
one repository, named missing-repo. -/
def selectedSourceClient : SourceOrgClient :=
  { listOrgVariableSelectedRepos := fun _ _ => .ok [{ id := 11, name := "missing-repo" }] }

end GhVarsMigrator

namespace GhVarsMigrator

/-- C7: for the fixed capability hierarchy, a scope set containing the
broad capability satisfies the check for each of its declared
sub-capabilities; a scope set containing only a sub-capability does not
satisfy the broad check; and a required capability present verbatim always
satisfies its own check. -/
theorem c7_capability_hierarchy :
    (∀ (scopes : List String) (parent required : String),
      parent ∈ scopes → required ∈ scopeHierarchy parent →
      hasScope scopes required = true) ∧
    (∀ (scopes : List String) (required : String),
      required ∈ scopes → hasScope scopes required = true) ∧
    hasScope ["admin:org"] "write:org" = true ∧
    hasScope ["admin:org"] "read:org" = true ∧
    hasScope ["repo"] "public_repo" = true ∧
    hasScope ["repo"] "repo:status" = true ∧
    hasScope ["repo"] "repo:deployment" = true ∧
    hasScope ["repo"] "repo:invite" = true ∧
    hasScope ["read:org"] "admin:org" = false ∧
    hasScope ["write:org"] "admin:org" = false ∧
    hasScope ["public_repo"] "repo" = false ∧
    hasScope ["repo:status"] "repo" = false := by
  refine ⟨?_, ?_, by decide, by decide, by decide, by decide, by decide, by decide,
    by decide, by decide, by decide, by decide⟩
  · intro scopes parent required hp hr
    have hpar : isParentScope parent required = true := by
      unfold isParentScope
      rw [List.any_eq_true]
      exact ⟨required, hr, by simp⟩
    unfold hasScope
    rw [List.any_eq_true]
    exact ⟨parent, hp, by simp [hpar]⟩
  · intro scopes required hmem
    unfold hasScope
    rw [List.any_eq_true]
    exact ⟨required, hmem, by simp⟩

/-- Witness for C7 at a concrete scope set. -/
theorem c7_capability_hierarchy_witness :
    hasScope ["gist", "admin:org"] "read:org" = true ∧
    hasScope ["gist", "repo"] "repo" = true :=
  ⟨c7_capability_hierarchy.1 ["gist", "admin:org"] "admin:org" "read:org"
      (by decide) (by decide),
    c7_capability_hierarchy.2.1 ["gist", "repo"] "repo" (by decide)⟩

/-- C8: when the scopes header is absent GetTokenScopes yields none, both
validators succeed on a none scope set (validation skipped, not denial),
and a missing-capability failure on a known set can only arise when that
set actually lacks the required capability. -/
theorem c8_unknown_scopes_skip_validation :
    (∀ role : String,
      getTokenScopes (.ok "") = .ok none ∧
      validateOrgScopes (.ok none) role = none ∧
      validateRepoScopes (.ok none) role = none ∧
      validateOrgScopes (getTokenScopes (.ok "")) role = none ∧
      validateRepoScopes (getTokenScopes (.ok "")) role = none) ∧
    (∀ (role : String) (l : List String) (m : String),
      validateOrgScopes (.ok (some l)) role = some m →
      hasScope l "admin:org" = false) ∧
    (∀ (role : String) (l : List String) (m : String),
      validateRepoScopes (.ok (some l)) role = some m →
      hasScope l "repo" = false) := by
  refine ⟨fun role => ⟨rfl, rfl, rfl, rfl, rfl⟩, ?_, ?_⟩
  · intro role l m h
    simp only [validateOrgScopes] at h
    cases hf : firstMissingScope requiredOrgScopes l with
    | none => rw [hf] at h; exact absurd h (by simp)
    | some s =>
      have hf2 : List.find? (fun r => !(hasScope l r)) requiredOrgScopes = some s := hf
      have hmem : s ∈ requiredOrgScopes := List.mem_of_find?_eq_some hf2
      have hps := List.find?_some hf2
      have hs : s = "admin:org" := by simpa [requiredOrgScopes] using hmem
      subst hs
      simpa using hps
  · intro role l m h
    simp only [validateRepoScopes] at h
    cases hf : firstMissingScope requiredRepoScopes l with
    | none => rw [hf] at h; exact absurd h (by simp)
    | some s =>
      have hf2 : List.find? (fun r => !(hasScope l r)) requiredRepoScopes = some s := hf
      have hmem : s ∈ requiredRepoScopes := List.mem_of_find?_eq_some hf2
      have hps := List.find?_some hf2
      have hs : s = "repo" := by simpa [requiredRepoScopes] using hmem
      subst hs
      simpa using hps

/-- Witness for C8 at a concrete under-scoped token. -/
theorem c8_unknown_scopes_skip_validation_witness :
    hasScope ["read:org"] "admin:org" = false ∧
    validateOrgScopes (.ok none) "source" = none :=
  ⟨c8_unknown_scopes_skip_validation.2.1 "source" ["read:org"]
      ("source token is missing required scope admin:org for organization variable migration")
      (by decide),
    (c8_unknown_scopes_skip_validation.1 "source").2.1⟩

/-- C9 counterexample: at remaining exactly equal to the reserved
threshold, with the reset time still in the future, no sleep occurs, so
the claim that a sleep happens whenever remaining is at or below the
threshold is false (the behavior pinned by
TestWaitForRateLimit_AtThreshold). -/
theorem c9_at_threshold_no_sleep_counterexample :
    (RateLimitInfo.mk 5000 10 3600).remaining ≤ minRemainingRequests ∧
    (0 : Int) < (RateLimitInfo.mk 5000 10 3600).resetTime ∧
    waitForRateLimit (RateLimitInfo.mk 5000 10 3600) minRemainingRequests 0 = none := by
  decide

/-- C9 (amended): when remaining is strictly below the reserved threshold
and the reset time is still in the future, the client sleeps until the
reset time plus the safety buffer; when the reset time has already
passed, no sleep occurs regardless of remaining. -/
theorem c9_rate_limit_sleep :
    (∀ (rl : RateLimitInfo) (threshold now : Int),
      rl.remaining < threshold → now < rl.resetTime →
      waitForRateLimit rl threshold now = some (rl.resetTime - now + rateLimitSafetyBuffer) ∧
      rl.resetTime - now ≤ rl.resetTime - now + rateLimitSafetyBuffer) ∧
    (∀ (rl : RateLimitInfo) (threshold now : Int),
      rl.resetTime ≤ now →
      waitForRateLimit rl threshold now = none) := by
  constructor
  · intro rl threshold now h1 h2
    constructor
    · simp [waitForRateLimit, h1, h2]
    · have : (0 : Int) ≤ rateLimitSafetyBuffer := by decide
      omega
  · intro rl threshold now h
    simp only [waitForRateLimit, ite_eq_right_iff]
    intro hc
    exact absurd hc.2 (not_lt.mpr h)

/-- Witness for C9 at the concrete inputs of the unit tests. -/
theorem c9_rate_limit_sleep_witness :
    waitForRateLimit (RateLimitInfo.mk 5000 5 30) minRemainingRequests 0 = some 35 ∧
    waitForRateLimit (RateLimitInfo.mk 5000 0 (-10)) minRemainingRequests 0 = none := by
  constructor
  · have h := (c9_rate_limit_sleep.1 (RateLimitInfo.mk 5000 5 30) minRemainingRequests 0
      (by decide) (by decide)).1
    simpa using h
  · exact c9_rate_limit_sleep.2 (RateLimitInfo.mk 5000 0 (-10)) minRemainingRequests 0 (by decide)

/-- Every possible outcome of migrateOrgVariable: skip, dry-run update,
update, failed update, dry-run create, create, failed create. -/
theorem migrateOrgVariable_shape {σ : Type} (cfg : MigrationConfig) (c : OrgTargetClient σ)
    (v : Variable) (st : σ) (r : MigrationResult) :
    migrateOrgVariable cfg c v st r = (st, { r with skipped := r.skipped + 1 }, [], none) ∨
    migrateOrgVariable cfg c v st r = (st, { r with updated := r.updated + 1 }, [], none) ∨
    (∃ st2, migrateOrgVariable cfg c v st r =
      (st2, { r with updated := r.updated + 1 }, [WriteCall.updateOrgVar cfg.targetOrg v], none)) ∨
    (∃ e, migrateOrgVariable cfg c v st r =
      (st, r, [WriteCall.updateOrgVar cfg.targetOrg v], some ("failed to update: " ++ e))) ∨
    migrateOrgVariable cfg c v st r = (st, { r with created := r.created + 1 }, [], none) ∨
    (∃ st2, migrateOrgVariable cfg c v st r =
      (st2, { r with created := r.created + 1 }, [WriteCall.createOrgVar cfg.targetOrg v], none)) ∨
    (∃ e, migrateOrgVariable cfg c v st r =
      (st, r, [WriteCall.createOrgVar cfg.targetOrg v], some ("failed to create: " ++ e))) := by
  cases hg : c.getOrgVariable st cfg.targetOrg v.name with
  | ok w =>
    cases hf : cfg.force with
    | false => exact Or.inl (by simp [migrateOrgVariable, hg, hf])
    | true =>
      cases hd : cfg.dryRun with
      | true => exact Or.inr (Or.inl (by simp [migrateOrgVariable, hg, hf, hd]))
      | false =>
        cases hu : c.updateOrgVariable st cfg.targetOrg v with
        | ok st2 =>
          exact Or.inr (Or.inr (Or.inl ⟨st2, by simp [migrateOrgVariable, hg, hf, hd, hu]⟩))
        | error e =>
          exact Or.inr (Or.inr (Or.inr (Or.inl ⟨e, by simp [migrateOrgVariable, hg, hf, hd, hu]⟩)))
  | error e0 =>
    cases hd : cfg.dryRun with
    | true =>
      exact Or.inr (Or.inr (Or.inr (Or.inr (Or.inl (by simp [migrateOrgVariable, hg, hd])))))
    | false =>
      cases hc : c.createOrgVariable st cfg.targetOrg v with
      | ok st2 =>
        exact Or.inr (Or.inr (Or.inr (Or.inr (Or.inr (Or.inl
          ⟨st2, by simp [migrateOrgVariable, hg, hd, hc]⟩)))))
      | error e =>
        exact Or.inr (Or.inr (Or.inr (Or.inr (Or.inr (Or.inr
          ⟨e, by simp [migrateOrgVariable, hg, hd, hc]⟩)))))

/-- A failing reconciliation leaves the target state and the result
untouched. -/
theorem migrateOrgVariable_error_frame {σ : Type} (cfg : MigrationConfig)
    (c : OrgTargetClient σ) (v : Variable) (st : σ) (r : MigrationResult)
    (st2 : σ) (r2 : MigrationResult) (ws2 : List WriteCall) (e : String)
    (h : migrateOrgVariable cfg c v st r = (st2, r2, ws2, some e)) :
    st2 = st ∧ r2 = r := by
  rcases migrateOrgVariable_shape cfg c v st r with hs | hs | ⟨s2, hs⟩ | ⟨e2, hs⟩ | hs | ⟨s2, hs⟩ | ⟨e2, hs⟩ <;>
    rw [hs] at h <;> simp only [Prod.mk.injEq] at h
  · exact absurd h.2.2.2 (by simp)
  · exact absurd h.2.2.2 (by simp)
  · exact absurd h.2.2.2 (by simp)
  · exact ⟨h.1.symm, h.2.1.symm⟩
  · exact absurd h.2.2.2 (by simp)
  · exact absurd h.2.2.2 (by simp)
  · exact ⟨h.1.symm, h.2.1.symm⟩

/-- The org variable loop processes a concatenation by processing the
first part and continuing with the second from the accumulated state. -/
theorem migrateOrgToOrgAux_append {σ : Type} (cfg : MigrationConfig) (src : SourceOrgClient)
    (tgt : OrgTargetClient σ) (xs ys : List Variable) (st : σ) (r : MigrationResult)
    (w : List WriteCall) :
    migrateOrgToOrgAux cfg src tgt (xs ++ ys) st r w =
      migrateOrgToOrgAux cfg src tgt ys
        (migrateOrgToOrgAux cfg src tgt xs st r w).1
        (migrateOrgToOrgAux cfg src tgt xs st r w).2.1
        (migrateOrgToOrgAux cfg src tgt xs st r w).2.2 := by
  induction xs generalizing st r w with
  | nil => simp [migrateOrgToOrgAux]
  | cons v xs ih =>
    simp only [List.cons_append, migrateOrgToOrgAux]
    exact ih _ _ _

/-- C6: a successful per-entity outcome increments exactly one of the
three counters, a failing one increments none of them and leaves the
result untouched (the failure list is extended by the caller via
addError, which itself leaves the counters alone), and total is always
created + updated + skipped. -/
theorem c6_exactly_one_counter (σ : Type) (cfg : MigrationConfig) (c : OrgTargetClient σ)
    (v : Variable) (st : σ) (r : MigrationResult) :
    (∀ r2 : MigrationResult, r2.total = r2.created + r2.updated + r2.skipped) ∧
    (∀ (r2 : MigrationResult) (e : String),
      (r2.addError e).created = r2.created ∧ (r2.addError e).updated = r2.updated ∧
      (r2.addError e).skipped = r2.skipped ∧ (r2.addError e).total = r2.total) ∧
    ((migrateOrgVariable cfg c v st r).2.2.2 = none →
      ((migrateOrgVariable cfg c v st r).2.1.created = r.created + 1 ∧
        (migrateOrgVariable cfg c v st r).2.1.updated = r.updated ∧
        (migrateOrgVariable cfg c v st r).2.1.skipped = r.skipped) ∨
      ((migrateOrgVariable cfg c v st r).2.1.created = r.created ∧
        (migrateOrgVariable cfg c v st r).2.1.updated = r.updated + 1 ∧
        (migrateOrgVariable cfg c v st r).2.1.skipped = r.skipped) ∨
      ((migrateOrgVariable cfg c v st r).2.1.created = r.created ∧
        (migrateOrgVariable cfg c v st r).2.1.updated = r.updated ∧
        (migrateOrgVariable cfg c v st r).2.1.skipped = r.skipped + 1)) ∧
    ((migrateOrgVariable cfg c v st r).2.2.2 = none →
      (migrateOrgVariable cfg c v st r).2.1.total = r.total + 1) ∧
    (∀ e, (migrateOrgVariable cfg c v st r).2.2.2 = some e →
      (migrateOrgVariable cfg c v st r).2.1 = r) ∧
    (migrateOrgVariable cfg c v st r).2.1.errors = r.errors := by
  refine ⟨fun r2 => rfl, fun r2 e => ⟨rfl, rfl, rfl, rfl⟩, ?_, ?_, ?_, ?_⟩ <;>
    rcases migrateOrgVariable_shape cfg c v st r with hs | hs | ⟨s2, hs⟩ | ⟨e2, hs⟩ | hs | ⟨s2, hs⟩ | ⟨e2, hs⟩ <;>
    rw [hs] <;> simp [MigrationResult.total] <;> omega

/-- Witness for C6 on a concrete dry-run create. -/
theorem c6_exactly_one_counter_witness :
    ((migrateOrgVariable scenarioConfigDry failingOrgClient varA () ⟨0, 0, 0, []⟩).2.1.created = 0 + 1 ∧
      (migrateOrgVariable scenarioConfigDry failingOrgClient varA () ⟨0, 0, 0, []⟩).2.1.updated = 0 ∧
      (migrateOrgVariable scenarioConfigDry failingOrgClient varA () ⟨0, 0, 0, []⟩).2.1.skipped = 0) ∨
    ((migrateOrgVariable scenarioConfigDry failingOrgClient varA () ⟨0, 0, 0, []⟩).2.1.created = 0 ∧
      (migrateOrgVariable scenarioConfigDry failingOrgClient varA () ⟨0, 0, 0, []⟩).2.1.updated = 0 + 1 ∧
      (migrateOrgVariable scenarioConfigDry failingOrgClient varA () ⟨0, 0, 0, []⟩).2.1.skipped = 0) ∨
    ((migrateOrgVariable scenarioConfigDry failingOrgClient varA () ⟨0, 0, 0, []⟩).2.1.created = 0 ∧
      (migrateOrgVariable scenarioConfigDry failingOrgClient varA () ⟨0, 0, 0, []⟩).2.1.updated = 0 ∧
      (migrateOrgVariable scenarioConfigDry failingOrgClient varA () ⟨0, 0, 0, []⟩).2.1.skipped = 0 + 1) :=
  (c6_exactly_one_counter Unit scenarioConfigDry failingOrgClient varA () ⟨0, 0, 0, []⟩).2.2.1
    (by decide)

/-- C10: when the target existence read fails with any error, the
reconciler takes the create path: skipped and updated are unchanged, a
dry run counts a would-create with no write, and otherwise a create (and
only a create) is attempted.  Stated for the org, repo and env
reconcilers. -/
theorem c10_get_error_takes_create_path :
    (∀ (σ : Type) (cfg : MigrationConfig) (c : OrgTargetClient σ) (v : Variable)
        (st : σ) (r : MigrationResult) (e : String),
      c.getOrgVariable st cfg.targetOrg v.name = .error e →
      (migrateOrgVariable cfg c v st r).2.1.skipped = r.skipped ∧
      (migrateOrgVariable cfg c v st r).2.1.updated = r.updated ∧
      (cfg.dryRun = true →
        (migrateOrgVariable cfg c v st r).2.1.created = r.created + 1 ∧
        (migrateOrgVariable cfg c v st r).2.2.1 = []) ∧
      (cfg.dryRun = false →
        (migrateOrgVariable cfg c v st r).2.2.1 = [WriteCall.createOrgVar cfg.targetOrg v])) ∧
    (∀ (σ : Type) (cfg : MigrationConfig) (c : RepoTargetClient σ) (v : Variable)
        (st : σ) (r : MigrationResult) (e : String),
      c.getRepoVariable st cfg.targetOwner cfg.targetRepo v.name = .error e →
      (migrateRepoVariable cfg c v st r).2.1.skipped = r.skipped ∧
      (migrateRepoVariable cfg c v st r).2.1.updated = r.updated ∧
      (cfg.dryRun = true →
        (migrateRepoVariable cfg c v st r).2.1.created = r.created + 1 ∧
        (migrateRepoVariable cfg c v st r).2.2.1 = []) ∧
      (cfg.dryRun = false →
        (migrateRepoVariable cfg c v st r).2.2.1 =
          [WriteCall.createRepoVar cfg.targetOwner cfg.targetRepo v])) ∧
    (∀ (σ : Type) (cfg : MigrationConfig) (c : EnvTargetClient σ) (envName : String)
        (v : Variable) (st : σ) (r : MigrationResult) (e : String),
      c.getEnvVariable st cfg.targetOwner cfg.targetRepo envName v.name = .error e →
      (migrateEnvVariable cfg c envName v st r).2.1.skipped = r.skipped ∧
      (migrateEnvVariable cfg c envName v st r).2.1.updated = r.updated ∧
      (cfg.dryRun = true →
        (migrateEnvVariable cfg c envName v st r).2.1.created = r.created + 1 ∧
        (migrateEnvVariable cfg c envName v st r).2.2.1 = []) ∧
      (cfg.dryRun = false →
        (migrateEnvVariable cfg c envName v st r).2.2.1 =
          [WriteCall.createEnvVar cfg.targetOwner cfg.targetRepo envName v])) := by
  refine ⟨?_, ?_, ?_⟩
  · intro σ cfg c v st r e hg
    cases hd : cfg.dryRun with
    | true => refine ⟨?_, ?_, ?_, ?_⟩ <;> simp [migrateOrgVariable, hg, hd]
    | false =>
      cases hc : c.createOrgVariable st cfg.targetOrg v with
      | ok st2 => refine ⟨?_, ?_, ?_, ?_⟩ <;> simp [migrateOrgVariable, hg, hd, hc]
      | error e2 => refine ⟨?_, ?_, ?_, ?_⟩ <;> simp [migrateOrgVariable, hg, hd, hc]
  · intro σ cfg c v st r e hg
    cases hd : cfg.dryRun with
    | true => refine ⟨?_, ?_, ?_, ?_⟩ <;> simp [migrateRepoVariable, hg, hd]
    | false =>
      cases hc : c.createRepoVariable st cfg.targetOwner cfg.targetRepo v with
      | ok st2 => refine ⟨?_, ?_, ?_, ?_⟩ <;> simp [migrateRepoVariable, hg, hd, hc]
      | error e2 => refine ⟨?_, ?_, ?_, ?_⟩ <;> simp [migrateRepoVariable, hg, hd, hc]
  · intro σ cfg c envName v st r e hg
    cases hd : cfg.dryRun with
    | true => refine ⟨?_, ?_, ?_, ?_⟩ <;> simp [migrateEnvVariable, hg, hd]
    | false =>
      cases hc : c.createEnvVariable st cfg.targetOwner cfg.targetRepo envName v with
      | ok st2 => refine ⟨?_, ?_, ?_, ?_⟩ <;> simp [migrateEnvVariable, hg, hd, hc]
      | error e2 => refine ⟨?_, ?_, ?_, ?_⟩ <;> simp [migrateEnvVariable, hg, hd, hc]

/-- Witness for C10 on a concrete failing read. -/
theorem c10_get_error_takes_create_path_witness :
    (migrateOrgVariable scenarioConfig failingOrgClient varA () ⟨0, 0, 0, []⟩).2.1.skipped = 0 ∧
    (migrateOrgVariable scenarioConfig failingOrgClient varA () ⟨0, 0, 0, []⟩).2.2.1 =
      [WriteCall.createOrgVar scenarioConfig.targetOrg varA] := by
  have h := c10_get_error_takes_create_path.1 Unit scenarioConfig failingOrgClient varA ()
    ⟨0, 0, 0, []⟩ "HTTP 403: Forbidden" rfl
  exact ⟨h.1, h.2.2.2 rfl⟩

/-- C2: against the state-based target, a variable whose name is present
in the target is skipped with no write under force=false and updated
under force=true, never both; and on the spec scenario (source A=1, B=2
against target A=0) force=false yields created=1, updated=0, skipped=1
while force=true yields created=1, updated=1, skipped=0. -/
theorem c2_force_semantics :
    (∀ (cfg : MigrationConfig) (v : Variable) (st : OrgState) (r : MigrationResult)
        (w : Variable), findVariable st.vars v.name = some w →
      (cfg.force = false →
        migrateOrgVariable cfg orgStateClient v st r =
          (st, { r with skipped := r.skipped + 1 }, [], none)) ∧
      (cfg.force = true →
        (migrateOrgVariable cfg orgStateClient v st r).2.1 =
          { r with updated := r.updated + 1 } ∧
        (migrateOrgVariable cfg orgStateClient v st r).2.2.2 = none)) ∧
    (∀ (cfg : MigrationConfig) (v : Variable) (st : List Variable) (r : MigrationResult)
        (w : Variable), findVariable st v.name = some w →
      (cfg.force = false →
        migrateRepoVariable cfg repoStateClient v st r =
          (st, { r with skipped := r.skipped + 1 }, [], none)) ∧
      (cfg.force = true →
        (migrateRepoVariable cfg repoStateClient v st r).2.1 =
          { r with updated := r.updated + 1 } ∧
        (migrateRepoVariable cfg repoStateClient v st r).2.2.2 = none)) ∧
    (migrateOrgToOrg scenarioConfig trivialSourceClient orgStateClient
        scenarioSource scenarioTarget).2.1 =
      { created := 1, updated := 0, skipped := 1, errors := [] } ∧
    (migrateOrgToOrg scenarioConfigForce trivialSourceClient orgStateClient
        scenarioSource scenarioTarget).2.1 =
      { created := 1, updated := 1, skipped := 0, errors := [] } := by
  refine ⟨?_, ?_, by decide, by decide⟩
  · intro cfg v st r w hw
    have hg : orgStateClient.getOrgVariable st cfg.targetOrg v.name = .ok w := by
      simp [orgStateClient, hw]
    constructor
    · intro hf
      simp [migrateOrgVariable, hg, hf]
    · intro hf
      cases hd : cfg.dryRun with
      | true => constructor <;> simp [migrateOrgVariable, hg, hf, hd]
      | false => constructor <;> simp [migrateOrgVariable, hg, hf, hd, orgStateClient, hw]
  · intro cfg v st r w hw
    have hg : repoStateClient.getRepoVariable st cfg.targetOwner cfg.targetRepo v.name = .ok w := by
      simp [repoStateClient, hw]
    constructor
    · intro hf
      simp [migrateRepoVariable, hg, hf]
    · intro hf
      cases hd : cfg.dryRun with
      | true => constructor <;> simp [migrateRepoVariable, hg, hf, hd]
      | false => constructor <;> simp [migrateRepoVariable, hg, hf, hd, repoStateClient, hw]

/-- Witness for C2 on the concrete scenario target. -/
theorem c2_force_semantics_witness :
    migrateOrgVariable scenarioConfig orgStateClient varA scenarioTarget ⟨0, 0, 0, []⟩ =
      (scenarioTarget, { created := 0, updated := 0, skipped := 0 + 1, errors := [] }, [], none) ∧
    (migrateOrgVariable scenarioConfigForce orgStateClient varA scenarioTarget ⟨0, 0, 0, []⟩).2.1 =
      { created := 0, updated := 0 + 1, skipped := 0, errors := [] } := by
  have h1 := (c2_force_semantics.1 scenarioConfig varA scenarioTarget ⟨0, 0, 0, []⟩
    { name := "A", value := "0" } (by decide)).1 rfl
  have h2 := (c2_force_semantics.1 scenarioConfigForce varA scenarioTarget ⟨0, 0, 0, []⟩
    { name := "A", value := "0" } (by decide)).2 rfl
  exact ⟨h1, h2.1⟩

/-- C5: a per-entity failure never aborts the run.  The loop processes a
concatenation by processing the first part and continuing with the second
from the accumulated state; and when reconciling one variable fails, the
state and counters are left untouched, the error is wrapped with the
variable name and appended to the failure list via addError, and the loop
continues with the remaining variables. -/
theorem c5_partial_failure_does_not_abort :
    (∀ (σ : Type) (cfg : MigrationConfig) (src : SourceOrgClient) (tgt : OrgTargetClient σ)
        (xs ys : List Variable) (st : σ) (r : MigrationResult) (w : List WriteCall),
      migrateOrgToOrgAux cfg src tgt (xs ++ ys) st r w =
        migrateOrgToOrgAux cfg src tgt ys
          (migrateOrgToOrgAux cfg src tgt xs st r w).1
          (migrateOrgToOrgAux cfg src tgt xs st r w).2.1
          (migrateOrgToOrgAux cfg src tgt xs st r w).2.2) ∧
    (∀ (r2 : MigrationResult) (e : String),
      r2.addError e = { r2 with errors := r2.errors ++ [e] }) ∧
    (∀ (σ : Type) (cfg : MigrationConfig) (src : SourceOrgClient) (tgt : OrgTargetClient σ)
        (v : Variable) (ys : List Variable) (st : σ) (r : MigrationResult)
        (w : List WriteCall) (st2 : σ) (r2 : MigrationResult) (ws2 : List WriteCall)
        (e : String),
      migrateOrgVariable cfg tgt (prepareOrgVariable cfg src tgt st v) st r =
        (st2, r2, ws2, some e) →
      st2 = st ∧ r2 = r ∧
      migrateOrgToOrgAux cfg src tgt (v :: ys) st r w =
        migrateOrgToOrgAux cfg src tgt ys st
          (r.addError ("variable " ++ v.name ++ ": " ++ e)) (w ++ ws2)) := by
  refine ⟨fun σ cfg src tgt xs ys st r w => migrateOrgToOrgAux_append cfg src tgt xs ys st r w,
    fun r2 e => rfl, ?_⟩
  intro σ cfg src tgt v ys st r w st2 r2 ws2 e h
  obtain ⟨h1, h2⟩ := migrateOrgVariable_error_frame cfg tgt _ st r st2 r2 ws2 e h
  subst h1
  subst h2
  refine ⟨rfl, rfl, ?_⟩
  simp only [migrateOrgToOrgAux]
  rw [h]

/-- Witness for C5 on a concrete failing create. -/
theorem c5_partial_failure_does_not_abort_witness :
    (() : Unit) = () ∧ (⟨0, 0, 0, []⟩ : MigrationResult) = ⟨0, 0, 0, []⟩ ∧
    migrateOrgToOrgAux scenarioConfig trivialSourceClient failingOrgClient
        (varA :: [varB]) () ⟨0, 0, 0, []⟩ [] =
      migrateOrgToOrgAux scenarioConfig trivialSourceClient failingOrgClient
        [varB] ()
        (MigrationResult.addError ⟨0, 0, 0, []⟩
          ("variable " ++ varA.name ++ ": " ++ "failed to create: HTTP 502: Bad Gateway"))
        ([] ++ [WriteCall.createOrgVar "target-org" { varA with visibility := "all" }]) :=
  c5_partial_failure_does_not_abort.2.2 Unit scenarioConfig trivialSourceClient
    failingOrgClient varA [varB] () ⟨0, 0, 0, []⟩ [] () ⟨0, 0, 0, []⟩
    [WriteCall.createOrgVar "target-org" { varA with visibility := "all" }]
    "failed to create: HTTP 502: Bad Gateway" (by decide)

/-- Preparation never changes the variable name. -/
theorem prepareOrgVariable_name {σ : Type} (cfg : MigrationConfig) (src : SourceOrgClient)
    (tgt : OrgTargetClient σ) (st : σ) (v : Variable) :
    (prepareOrgVariable cfg src tgt st v).name = v.name := by
  simp only [prepareOrgVariable]
  split <;> split <;> rfl

/-- Preparation only reads the source and target organizations of the
configuration and the repositories of the target state. -/
theorem prepareOrgVariable_congr (cfgA cfgB : MigrationConfig) (src : SourceOrgClient)
    (stA stB : OrgState) (v : Variable)
    (hso : cfgA.sourceOrg = cfgB.sourceOrg) (_hto : cfgA.targetOrg = cfgB.targetOrg)
    (hrepos : stA.repos = stB.repos) :
    prepareOrgVariable cfgA src orgStateClient stA v =
      prepareOrgVariable cfgB src orgStateClient stB v := by
  simp only [prepareOrgVariable, resolveSelectedRepos, orgStateClient]
  rw [hso, hrepos]

/-- Appending one variable changes a lookup only through an or with the
appended variable. -/
theorem findVariable_append_single (l : List Variable) (x : Variable) (n : String) :
    findVariable (l ++ [x]) n =
      (findVariable l n).or (if x.name == n then some x else none) := by
  unfold findVariable
  rw [List.find?_append, List.find?_singleton]

/-- An in-place rewrite at one name maps a lookup through the rewrite, for
every looked-up name, provided the replacement keeps the name. -/
theorem findVariable_map_update (l : List Variable) (v b : Variable)
    (hb : b.name = v.name) (n : String) :
    findVariable (l.map (fun w => if w.name == v.name then b else w)) n =
      (findVariable l n).map (fun w => if w.name == v.name then b else w) := by
  unfold findVariable
  rw [List.find?_map]
  have hfun : ((fun u : Variable => u.name == n) ∘ fun w => if w.name == v.name then b else w)
      = fun u : Variable => u.name == n := by
    funext w
    by_cases h : (w.name == v.name) = true
    · have hw : w.name = v.name := by simpa using h
      simp [Function.comp, h, hb, hw]
    · simp [Function.comp, h]
  rw [hfun]

/-- The repositories of the target organization are untouched by a single
reconciliation step. -/
theorem orgStep_repos (cfg : MigrationConfig) (v : Variable) (st : OrgState)
    (r : MigrationResult) :
    ((migrateOrgVariable cfg orgStateClient v st r).1).repos = st.repos := by
  cases hg : findVariable st.vars v.name with
  | some w =>
    cases hf : cfg.force with
    | false => simp [migrateOrgVariable, orgStateClient, hg, hf]
    | true =>
      cases hd : cfg.dryRun with
      | true => simp [migrateOrgVariable, orgStateClient, hg, hf, hd]
      | false => simp [migrateOrgVariable, orgStateClient, hg, hf, hd]
  | none =>
    cases hd : cfg.dryRun with
    | true => simp [migrateOrgVariable, orgStateClient, hg, hd]
    | false => simp [migrateOrgVariable, orgStateClient, hg, hd]

/-- A single reconciliation step never removes a variable from the target
organization. -/
theorem orgStep_presence (cfg : MigrationConfig) (v : Variable) (st : OrgState)
    (r : MigrationResult) (n : String)
    (h : (findVariable st.vars n).isSome = true) :
    (findVariable ((migrateOrgVariable cfg orgStateClient v st r).1).vars n).isSome = true := by
  cases hg : findVariable st.vars v.name with
  | some w =>
    cases hf : cfg.force with
    | false => simpa [migrateOrgVariable, orgStateClient, hg, hf] using h
    | true =>
      cases hd : cfg.dryRun with
      | true => simpa [migrateOrgVariable, orgStateClient, hg, hf, hd] using h
      | false =>
        have hstep : (migrateOrgVariable cfg orgStateClient v st r).1 =
            { st with vars := st.vars.map (fun u => if u.name == v.name then orgVariableBody v else u) } := by
          simp [migrateOrgVariable, orgStateClient, hg, hf, hd]
        rw [hstep]
        show (findVariable (st.vars.map (fun u => if u.name == v.name then orgVariableBody v else u)) n).isSome = true
        rw [findVariable_map_update st.vars v (orgVariableBody v) rfl n, Option.isSome_map']
        exact h
  | none =>
    cases hd : cfg.dryRun with
    | true => simpa [migrateOrgVariable, orgStateClient, hg, hd] using h
    | false =>
      have hstep : (migrateOrgVariable cfg orgStateClient v st r).1 =
          { st with vars := st.vars ++ [orgVariableBody v] } := by
        simp [migrateOrgVariable, orgStateClient, hg, hd]
      rw [hstep]
      show (findVariable (st.vars ++ [orgVariableBody v]) n).isSome = true
      rw [findVariable_append_single, Option.isSome_or]
      simp [h]

/-- After a wet reconciliation step, the reconciled variable is present in
the target organization. -/
theorem orgStep_self_presence (cfg : MigrationConfig) (hd : cfg.dryRun = false)
    (v : Variable) (st : OrgState) (r : MigrationResult) :
    (findVariable ((migrateOrgVariable cfg orgStateClient v st r).1).vars v.name).isSome = true := by
  cases hg : findVariable st.vars v.name with
  | some w =>
    cases hf : cfg.force with
    | false => simp [migrateOrgVariable, orgStateClient, hg, hf]
    | true =>
      have hstep : (migrateOrgVariable cfg orgStateClient v st r).1 =
          { st with vars := st.vars.map (fun u => if u.name == v.name then orgVariableBody v else u) } := by
        simp [migrateOrgVariable, orgStateClient, hg, hf, hd]
      rw [hstep]
      show (findVariable (st.vars.map (fun u => if u.name == v.name then orgVariableBody v else u)) v.name).isSome = true
      rw [findVariable_map_update st.vars v (orgVariableBody v) rfl v.name, Option.isSome_map']
      simp [hg]
  | none =>
    have hstep : (migrateOrgVariable cfg orgStateClient v st r).1 =
        { st with vars := st.vars ++ [orgVariableBody v] } := by
      simp [migrateOrgVariable, orgStateClient, hg, hd]
    rw [hstep]
    show (findVariable (st.vars ++ [orgVariableBody v]) v.name).isSome = true
    rw [findVariable_append_single, Option.isSome_or]
    simp [orgVariableBody]

/-- The repositories of the target organization are untouched by the org
variable loop. -/
theorem orgRun_repos (cfg : MigrationConfig) (src : SourceOrgClient)
    (vs : List Variable) : ∀ (st : OrgState) (r : MigrationResult) (w : List WriteCall),
    ((migrateOrgToOrgAux cfg src orgStateClient vs st r w).1).repos = st.repos := by
  induction vs with
  | nil => intro st r w; simp [migrateOrgToOrgAux]
  | cons v rest ih =>
    intro st r w
    simp only [migrateOrgToOrgAux]
    rw [ih]
    exact orgStep_repos cfg (prepareOrgVariable cfg src orgStateClient st v) st r

/-- The org variable loop never removes a variable from the target
organization. -/
theorem orgRun_presence_mono (cfg : MigrationConfig) (src : SourceOrgClient)
    (vs : List Variable) : ∀ (st : OrgState) (r : MigrationResult) (w : List WriteCall)
    (n : String), (findVariable st.vars n).isSome = true →
    (findVariable ((migrateOrgToOrgAux cfg src orgStateClient vs st r w).1).vars n).isSome = true := by
  induction vs with
  | nil => intro st r w n h; simpa [migrateOrgToOrgAux] using h
  | cons v rest ih =>
    intro st r w n h
    simp only [migrateOrgToOrgAux]
    exact ih _ _ _ n
      (orgStep_presence cfg (prepareOrgVariable cfg src orgStateClient st v) st r n h)

/-- After a wet org variable loop, every processed variable is present in
the target organization. -/
theorem orgRun_presence_of_mem (cfg : MigrationConfig) (src : SourceOrgClient)
    (hd : cfg.dryRun = false) (vs : List Variable) :
    ∀ (st : OrgState) (r : MigrationResult) (w : List WriteCall),
    ∀ v ∈ vs,
    (findVariable ((migrateOrgToOrgAux cfg src orgStateClient vs st r w).1).vars v.name).isSome = true := by
  induction vs with
  | nil => intro st r w v hv; exact absurd hv (List.not_mem_nil v)
  | cons u rest ih =>
    intro st r w v hv
    simp only [migrateOrgToOrgAux]
    rcases List.mem_cons.mp hv with hv | hv
    · subst hv
      apply orgRun_presence_mono cfg src rest
      have hself := orgStep_self_presence cfg hd
        (prepareOrgVariable cfg src orgStateClient st v) st r
      rwa [prepareOrgVariable_name] at hself
    · exact ih _ _ _ v hv

/-- When every variable of the list is already present and force is off,
the org variable loop only skips: state and writes are unchanged and the
skip counter advances by the length of the list. -/
theorem orgRun_all_present (cfg : MigrationConfig) (src : SourceOrgClient)
    (hf : cfg.force = false) (vs : List Variable) :
    ∀ (st : OrgState) (r : MigrationResult) (w : List WriteCall),
    (∀ v ∈ vs, (findVariable st.vars v.name).isSome = true) →
    migrateOrgToOrgAux cfg src orgStateClient vs st r w =
      (st, { r with skipped := r.skipped + vs.length }, w) := by
  induction vs with
  | nil => intro st r w _; simp [migrateOrgToOrgAux]
  | cons v rest ih =>
    intro st r w hall
    have hv := hall v (List.mem_cons_self v rest)
    obtain ⟨w2, hw2⟩ := Option.isSome_iff_exists.mp hv
    have hname := prepareOrgVariable_name cfg src orgStateClient st v
    have hstep : migrateOrgVariable cfg orgStateClient
        (prepareOrgVariable cfg src orgStateClient st v) st r =
        (st, { r with skipped := r.skipped + 1 }, [], none) := by
      generalize hp : prepareOrgVariable cfg src orgStateClient st v = p at hname ⊢
      simp [migrateOrgVariable, orgStateClient, hname, hw2, hf]
    simp only [migrateOrgToOrgAux, hstep]
    rw [List.append_nil]
    rw [ih st { r with skipped := r.skipped + 1 } w
      (fun u hu => hall u (List.mem_cons_of_mem v hu))]
    have harith : r.skipped + 1 + rest.length = r.skipped + (v :: rest).length := by
      simp [List.length_cons]
      omega
    rw [harith]

/-- A single repository reconciliation step never removes a variable from
the target repository. -/
theorem repoStep_presence (cfg : MigrationConfig) (v : Variable) (st : List Variable)
    (r : MigrationResult) (n : String)
    (h : (findVariable st n).isSome = true) :
    (findVariable ((migrateRepoVariable cfg repoStateClient v st r).1) n).isSome = true := by
  cases hg : findVariable st v.name with
  | some w =>
    cases hf : cfg.force with
    | false => simpa [migrateRepoVariable, repoStateClient, hg, hf] using h
    | true =>
      cases hd : cfg.dryRun with
      | true => simpa [migrateRepoVariable, repoStateClient, hg, hf, hd] using h
      | false =>
        have hstep : (migrateRepoVariable cfg repoStateClient v st r).1 =
            st.map (fun u => if u.name == v.name then repoVariableBody v else u) := by
          simp [migrateRepoVariable, repoStateClient, hg, hf, hd]
        rw [hstep, findVariable_map_update st v (repoVariableBody v) rfl n, Option.isSome_map']
        exact h
  | none =>
    cases hd : cfg.dryRun with
    | true => simpa [migrateRepoVariable, repoStateClient, hg, hd] using h
    | false =>
      have hstep : (migrateRepoVariable cfg repoStateClient v st r).1 =
          st ++ [repoVariableBody v] := by
        simp [migrateRepoVariable, repoStateClient, hg, hd]
      rw [hstep, findVariable_append_single, Option.isSome_or]
      simp [h]

/-- After a wet repository reconciliation step, the reconciled variable is
present in the target repository. -/
theorem repoStep_self_presence (cfg : MigrationConfig) (hd : cfg.dryRun = false)
    (v : Variable) (st : List Variable) (r : MigrationResult) :
    (findVariable ((migrateRepoVariable cfg repoStateClient v st r).1) v.name).isSome = true := by
  cases hg : findVariable st v.name with
  | some w =>
    cases hf : cfg.force with
    | false => simp [migrateRepoVariable, repoStateClient, hg, hf]
    | true =>
      have hstep : (migrateRepoVariable cfg repoStateClient v st r).1 =
          st.map (fun u => if u.name == v.name then repoVariableBody v else u) := by
        simp [migrateRepoVariable, repoStateClient, hg, hf, hd]
      rw [hstep, findVariable_map_update st v (repoVariableBody v) rfl v.name, Option.isSome_map']
      simp [hg]
  | none =>
    have hstep : (migrateRepoVariable cfg repoStateClient v st r).1 =
        st ++ [repoVariableBody v] := by
      simp [migrateRepoVariable, repoStateClient, hg, hd]
    rw [hstep, findVariable_append_single, Option.isSome_or]
    simp [repoVariableBody]

/-- The repository variable loop never removes a variable from the target
repository. -/
theorem repoRun_presence_mono (cfg : MigrationConfig) (vs : List Variable) :
    ∀ (st : List Variable) (r : MigrationResult) (w : List WriteCall) (n : String),
    (findVariable st n).isSome = true →
    (findVariable ((migrateRepoVariablesAux cfg repoStateClient vs st r w).1) n).isSome = true := by
  induction vs with
  | nil => intro st r w n h; simpa [migrateRepoVariablesAux] using h
  | cons v rest ih =>
    intro st r w n h
    simp only [migrateRepoVariablesAux]
    exact ih _ _ _ n (repoStep_presence cfg v st r n h)

/-- After a wet repository variable loop, every processed variable is
present in the target repository. -/
theorem repoRun_presence_of_mem (cfg : MigrationConfig) (hd : cfg.dryRun = false)
    (vs : List Variable) :
    ∀ (st : List Variable) (r : MigrationResult) (w : List WriteCall),
    ∀ v ∈ vs,
    (findVariable ((migrateRepoVariablesAux cfg repoStateClient vs st r w).1) v.name).isSome = true := by
  induction vs with
  | nil => intro st r w v hv; exact absurd hv (List.not_mem_nil v)
  | cons u rest ih =>
    intro st r w v hv
    simp only [migrateRepoVariablesAux]
    rcases List.mem_cons.mp hv with hv | hv
    · subst hv
      exact repoRun_presence_mono cfg rest _ _ _ v.name
        (repoStep_self_presence cfg hd v st r)
    · exact ih _ _ _ v hv

/-- When every variable of the list is already present and force is off,
the repository variable loop only skips. -/
theorem repoRun_all_present (cfg : MigrationConfig) (hf : cfg.force = false)
    (vs : List Variable) :
    ∀ (st : List Variable) (r : MigrationResult) (w : List WriteCall),
    (∀ v ∈ vs, (findVariable st v.name).isSome = true) →
    migrateRepoVariablesAux cfg repoStateClient vs st r w =
      (st, { r with skipped := r.skipped + vs.length }, w) := by
  induction vs with
  | nil => intro st r w _; simp [migrateRepoVariablesAux]
  | cons v rest ih =>
    intro st r w hall
    have hv := hall v (List.mem_cons_self v rest)
    obtain ⟨w2, hw2⟩ := Option.isSome_iff_exists.mp hv
    have hstep : migrateRepoVariable cfg repoStateClient v st r =
        (st, { r with skipped := r.skipped + 1 }, [], none) := by
      simp [migrateRepoVariable, repoStateClient, hw2, hf]
    simp only [migrateRepoVariablesAux, hstep]
    rw [List.append_nil]
    rw [ih st { r with skipped := r.skipped + 1 } w
      (fun u hu => hall u (List.mem_cons_of_mem v hu))]
    have harith : r.skipped + 1 + rest.length = r.skipped + (v :: rest).length := by
      simp [List.length_cons]
      omega
    rw [harith]

/-- C3: running the same migration twice with force off (and writes
enabled) makes the second run skip every variable: created and updated
are zero, every entity of the list is counted as skipped, no write is
issued and the target state is unchanged.  Stated for the org-to-org run
and for the repository variable run against the state-based clients. -/
theorem c3_idempotence :
    (∀ (cfg : MigrationConfig) (src : SourceOrgClient) (vs : List Variable) (st : OrgState),
      cfg.force = false → cfg.dryRun = false →
      migrateOrgToOrg cfg src orgStateClient vs
          (migrateOrgToOrg cfg src orgStateClient vs st).1 =
        ((migrateOrgToOrg cfg src orgStateClient vs st).1,
          { created := 0, updated := 0, skipped := vs.length, errors := [] }, [])) ∧
    (∀ (cfg : MigrationConfig) (vs : List Variable) (st : List Variable),
      cfg.force = false → cfg.dryRun = false →
      migrateRepoVariables cfg repoStateClient vs
          (migrateRepoVariables cfg repoStateClient vs st).1 =
        ((migrateRepoVariables cfg repoStateClient vs st).1,
          { created := 0, updated := 0, skipped := vs.length, errors := [] }, [])) := by
  constructor
  · intro cfg src vs st hf hd
    have hall := orgRun_presence_of_mem cfg src hd vs st {} []
    have h := orgRun_all_present cfg src hf vs
      (migrateOrgToOrgAux cfg src orgStateClient vs st {} []).1 {} [] hall
    simpa [migrateOrgToOrg] using h
  · intro cfg vs st hf hd
    have hall := repoRun_presence_of_mem cfg hd vs st {} []
    have h := repoRun_all_present cfg hf vs
      (migrateRepoVariablesAux cfg repoStateClient vs st {} []).1 {} [] hall
    simpa [migrateRepoVariables] using h

/-- Witness for C3 on the concrete scenario. -/
theorem c3_idempotence_witness :
    migrateOrgToOrg scenarioConfig trivialSourceClient orgStateClient scenarioSource
        (migrateOrgToOrg scenarioConfig trivialSourceClient orgStateClient
          scenarioSource scenarioTarget).1 =
      ((migrateOrgToOrg scenarioConfig trivialSourceClient orgStateClient
          scenarioSource scenarioTarget).1,
        { created := 0, updated := 0, skipped := scenarioSource.length, errors := [] }, []) :=
  c3_idempotence.1 scenarioConfig trivialSourceClient scenarioSource scenarioTarget rfl rfl

/-- A dry org run and a wet org run over a duplicate-free source listing
move in lockstep: they produce the same result, and the dry run changes
neither the target state nor the write list. -/
theorem orgRun_dry_wet (cfg : MigrationConfig) (src : SourceOrgClient)
    (vs : List Variable) :
    ∀ (st0 stW : OrgState) (r : MigrationResult) (w wW : List WriteCall),
    (vs.map (fun v => v.name)).Nodup →
    stW.repos = st0.repos →
    (∀ v ∈ vs, (findVariable stW.vars v.name).isSome = (findVariable st0.vars v.name).isSome) →
    (migrateOrgToOrgAux { cfg with dryRun := true } src orgStateClient vs st0 r w).2.1 =
      (migrateOrgToOrgAux { cfg with dryRun := false } src orgStateClient vs stW r wW).2.1 ∧
    (migrateOrgToOrgAux { cfg with dryRun := true } src orgStateClient vs st0 r w).1 = st0 ∧
    (migrateOrgToOrgAux { cfg with dryRun := true } src orgStateClient vs st0 r w).2.2 = w := by
  induction vs with
  | nil => intro st0 stW r w wW _ _ _; simp [migrateOrgToOrgAux]
  | cons v rest ih =>
    intro st0 stW r w wW hnd hrepos hagree
    simp only [List.map_cons, List.nodup_cons] at hnd
    have hagv := hagree v (List.mem_cons_self v rest)
    have hagrest : ∀ u ∈ rest,
        (findVariable stW.vars u.name).isSome = (findVariable st0.vars u.name).isSome :=
      fun u hu => hagree u (List.mem_cons_of_mem v hu)
    simp only [migrateOrgToOrgAux]
    set p := prepareOrgVariable { cfg with dryRun := true } src orgStateClient st0 v with hp
    have pname : p.name = v.name := by
      rw [hp]; exact prepareOrgVariable_name _ src orgStateClient st0 v
    have hprep : prepareOrgVariable { cfg with dryRun := false } src orgStateClient stW v = p := by
      rw [hp]
      exact prepareOrgVariable_congr _ _ src stW st0 v rfl rfl hrepos
    rw [hprep]
    cases h0 : findVariable st0.vars v.name with
    | some w0 =>
      have hW : (findVariable stW.vars v.name).isSome = true := by rw [hagv, h0]; rfl
      obtain ⟨wW0, hW0⟩ := Option.isSome_iff_exists.mp hW
      rcases Bool.dichotomy cfg.force with hforce | hforce
      · have hstepD : migrateOrgVariable { cfg with dryRun := true } orgStateClient p st0 r =
            (st0, { r with skipped := r.skipped + 1 }, [], none) := by
          simp [migrateOrgVariable, orgStateClient, pname, h0, hforce]
        have hstepW : migrateOrgVariable { cfg with dryRun := false } orgStateClient p stW r =
            (stW, { r with skipped := r.skipped + 1 }, [], none) := by
          simp [migrateOrgVariable, orgStateClient, pname, hW0, hforce]
        rw [hstepD, hstepW]
        simp only [List.append_nil]
        simpa using ih st0 stW { r with skipped := r.skipped + 1 } w wW
          hnd.2 hrepos hagrest
      ·
        have hstepD : migrateOrgVariable { cfg with dryRun := true } orgStateClient p st0 r =
            (st0, { r with updated := r.updated + 1 }, [], none) := by
          simp [migrateOrgVariable, orgStateClient, pname, h0, hforce]
        have hstepW : migrateOrgVariable { cfg with dryRun := false } orgStateClient p stW r =
            ({ stW with vars := stW.vars.map (fun u => if u.name == p.name then orgVariableBody p else u) },
              { r with updated := r.updated + 1 },
              [WriteCall.updateOrgVar ({ cfg with dryRun := false } : MigrationConfig).targetOrg p], none) := by
          simp [migrateOrgVariable, orgStateClient, pname, hW0, hforce]
        rw [hstepD, hstepW]
        simp only [List.append_nil]
        have hagrest2 : ∀ u ∈ rest,
            (findVariable (stW.vars.map (fun x => if x.name == p.name then orgVariableBody p else x)) u.name).isSome =
              (findVariable st0.vars u.name).isSome := by
          intro u hu
          rw [findVariable_map_update stW.vars p (orgVariableBody p) rfl u.name, Option.isSome_map']
          exact hagrest u hu
        simpa using ih st0
          { stW with vars := stW.vars.map (fun x => if x.name == p.name then orgVariableBody p else x) }
          { r with updated := r.updated + 1 } w
          (wW ++ [WriteCall.updateOrgVar ({ cfg with dryRun := false } : MigrationConfig).targetOrg p])
          hnd.2 hrepos hagrest2
    | none =>
      have hW0 : findVariable stW.vars v.name = none := by
        have : (findVariable stW.vars v.name).isSome = false := by rw [hagv, h0]; rfl
        exact Option.not_isSome_iff_eq_none.mp (by simp [this])
      have hstepD : migrateOrgVariable { cfg with dryRun := true } orgStateClient p st0 r =
          (st0, { r with created := r.created + 1 }, [], none) := by
        simp [migrateOrgVariable, orgStateClient, pname, h0]
      have hstepW : migrateOrgVariable { cfg with dryRun := false } orgStateClient p stW r =
          ({ stW with vars := stW.vars ++ [orgVariableBody p] },
            { r with created := r.created + 1 },
            [WriteCall.createOrgVar ({ cfg with dryRun := false } : MigrationConfig).targetOrg p], none) := by
        simp [migrateOrgVariable, orgStateClient, pname, hW0]
      rw [hstepD, hstepW]
      simp only [List.append_nil]
      have hagrest2 : ∀ u ∈ rest,
          (findVariable (stW.vars ++ [orgVariableBody p]) u.name).isSome =
            (findVariable st0.vars u.name).isSome := by
        intro u hu
        have hune : ((orgVariableBody p).name == u.name) = false := by
          have h1 : (orgVariableBody p).name = v.name := pname
          have h2 : v.name ≠ u.name := by
            intro hcontra
            exact hnd.1 (hcontra ▸ List.mem_map_of_mem (fun x => x.name) hu)
          simp [h1, h2]
        rw [findVariable_append_single, hune]
        simp [Option.or_none]
        exact hagrest u hu
      simpa using ih st0
        { stW with vars := stW.vars ++ [orgVariableBody p] }
        { r with created := r.created + 1 } w
        (wW ++ [WriteCall.createOrgVar ({ cfg with dryRun := false } : MigrationConfig).targetOrg p])
        hnd.2 hrepos hagrest2

/-- A dry repository run and a wet repository run over a duplicate-free
source listing move in lockstep. -/
theorem repoRun_dry_wet (cfg : MigrationConfig) (vs : List Variable) :
    ∀ (st0 stW : List Variable) (r : MigrationResult) (w wW : List WriteCall),
    (vs.map (fun v => v.name)).Nodup →
    (∀ v ∈ vs, (findVariable stW v.name).isSome = (findVariable st0 v.name).isSome) →
    (migrateRepoVariablesAux { cfg with dryRun := true } repoStateClient vs st0 r w).2.1 =
      (migrateRepoVariablesAux { cfg with dryRun := false } repoStateClient vs stW r wW).2.1 ∧
    (migrateRepoVariablesAux { cfg with dryRun := true } repoStateClient vs st0 r w).1 = st0 ∧
    (migrateRepoVariablesAux { cfg with dryRun := true } repoStateClient vs st0 r w).2.2 = w := by
  induction vs with
  | nil => intro st0 stW r w wW _ _; simp [migrateRepoVariablesAux]
  | cons v rest ih =>
    intro st0 stW r w wW hnd hagree
    simp only [List.map_cons, List.nodup_cons] at hnd
    have hagv := hagree v (List.mem_cons_self v rest)
    have hagrest : ∀ u ∈ rest,
        (findVariable stW u.name).isSome = (findVariable st0 u.name).isSome :=
      fun u hu => hagree u (List.mem_cons_of_mem v hu)
    simp only [migrateRepoVariablesAux]
    cases h0 : findVariable st0 v.name with
    | some w0 =>
      have hW : (findVariable stW v.name).isSome = true := by rw [hagv, h0]; rfl
      obtain ⟨wW0, hW0⟩ := Option.isSome_iff_exists.mp hW
      rcases Bool.dichotomy cfg.force with hforce | hforce
      · have hstepD : migrateRepoVariable { cfg with dryRun := true } repoStateClient v st0 r =
            (st0, { r with skipped := r.skipped + 1 }, [], none) := by
          simp [migrateRepoVariable, repoStateClient, h0, hforce]
        have hstepW : migrateRepoVariable { cfg with dryRun := false } repoStateClient v stW r =
            (stW, { r with skipped := r.skipped + 1 }, [], none) := by
          simp [migrateRepoVariable, repoStateClient, hW0, hforce]
        rw [hstepD, hstepW]
        simp only [List.append_nil]
        simpa using ih st0 stW { r with skipped := r.skipped + 1 } w wW hnd.2 hagrest
      · have hstepD : migrateRepoVariable { cfg with dryRun := true } repoStateClient v st0 r =
            (st0, { r with updated := r.updated + 1 }, [], none) := by
          simp [migrateRepoVariable, repoStateClient, h0, hforce]
        have hstepW : migrateRepoVariable { cfg with dryRun := false } repoStateClient v stW r =
            (stW.map (fun u => if u.name == v.name then repoVariableBody v else u),
              { r with updated := r.updated + 1 },
              [WriteCall.updateRepoVar ({ cfg with dryRun := false } : MigrationConfig).targetOwner
                ({ cfg with dryRun := false } : MigrationConfig).targetRepo v], none) := by
          simp [migrateRepoVariable, repoStateClient, hW0, hforce]
        rw [hstepD, hstepW]
        simp only [List.append_nil]
        have hagrest2 : ∀ u ∈ rest,
            (findVariable (stW.map (fun x => if x.name == v.name then repoVariableBody v else x)) u.name).isSome =
              (findVariable st0 u.name).isSome := by
          intro u hu
          rw [findVariable_map_update stW v (repoVariableBody v) rfl u.name, Option.isSome_map']
          exact hagrest u hu
        simpa using ih st0
          (stW.map (fun x => if x.name == v.name then repoVariableBody v else x))
          { r with updated := r.updated + 1 } w
          (wW ++ [WriteCall.updateRepoVar ({ cfg with dryRun := false } : MigrationConfig).targetOwner
            ({ cfg with dryRun := false } : MigrationConfig).targetRepo v])
          hnd.2 hagrest2
    | none =>
      have hW0 : findVariable stW v.name = none := by
        have hfalse : (findVariable stW v.name).isSome = false := by rw [hagv, h0]; rfl
        exact Option.not_isSome_iff_eq_none.mp (by simp [hfalse])
      have hstepD : migrateRepoVariable { cfg with dryRun := true } repoStateClient v st0 r =
          (st0, { r with created := r.created + 1 }, [], none) := by
        simp [migrateRepoVariable, repoStateClient, h0]
      have hstepW : migrateRepoVariable { cfg with dryRun := false } repoStateClient v stW r =
          (stW ++ [repoVariableBody v],
            { r with created := r.created + 1 },
            [WriteCall.createRepoVar ({ cfg with dryRun := false } : MigrationConfig).targetOwner
              ({ cfg with dryRun := false } : MigrationConfig).targetRepo v], none) := by
        simp [migrateRepoVariable, repoStateClient, hW0]
      rw [hstepD, hstepW]
      simp only [List.append_nil]
      have hagrest2 : ∀ u ∈ rest,
          (findVariable (stW ++ [repoVariableBody v]) u.name).isSome =
            (findVariable st0 u.name).isSome := by
        intro u hu
        have hune : ((repoVariableBody v).name == u.name) = false := by
          have h2 : v.name ≠ u.name := by
            intro hcontra
            exact hnd.1 (hcontra ▸ List.mem_map_of_mem (fun x => x.name) hu)
          simp [repoVariableBody, h2]
        rw [findVariable_append_single, hune]
        simp [Option.or_none]
        exact hagrest u hu
      simpa using ih st0 (stW ++ [repoVariableBody v])
        { r with created := r.created + 1 } w
        (wW ++ [WriteCall.createRepoVar ({ cfg with dryRun := false } : MigrationConfig).targetOwner
          ({ cfg with dryRun := false } : MigrationConfig).targetRepo v])
        hnd.2 hagrest2

/-- C4: over a duplicate-free source listing (variable names are unique
within a scope), a dry run issues no write call, leaves the target state
unchanged, and produces exactly the same result, counters included, as
the corresponding wet run.  Stated for the org-to-org run and for the
repository variable run against the state-based clients. -/
theorem c4_dry_run_purity :
    (∀ (cfg : MigrationConfig) (src : SourceOrgClient) (vs : List Variable) (st : OrgState),
      (vs.map (fun v => v.name)).Nodup →
      (migrateOrgToOrg { cfg with dryRun := true } src orgStateClient vs st).2.2 = [] ∧
      (migrateOrgToOrg { cfg with dryRun := true } src orgStateClient vs st).1 = st ∧
      (migrateOrgToOrg { cfg with dryRun := true } src orgStateClient vs st).2.1 =
        (migrateOrgToOrg { cfg with dryRun := false } src orgStateClient vs st).2.1) ∧
    (∀ (cfg : MigrationConfig) (vs : List Variable) (st : List Variable),
      (vs.map (fun v => v.name)).Nodup →
      (migrateRepoVariables { cfg with dryRun := true } repoStateClient vs st).2.2 = [] ∧
      (migrateRepoVariables { cfg with dryRun := true } repoStateClient vs st).1 = st ∧
      (migrateRepoVariables { cfg with dryRun := true } repoStateClient vs st).2.1 =
        (migrateRepoVariables { cfg with dryRun := false } repoStateClient vs st).2.1) := by
  constructor
  · intro cfg src vs st hnd
    have h := orgRun_dry_wet cfg src vs st st {} [] [] hnd rfl (fun v _ => rfl)
    exact ⟨h.2.2, h.2.1, h.1⟩
  · intro cfg vs st hnd
    have h := repoRun_dry_wet cfg vs st st {} [] [] hnd (fun v _ => rfl)
    exact ⟨h.2.2, h.2.1, h.1⟩

/-- Witness for C4 on the concrete scenario. -/
theorem c4_dry_run_purity_witness :
    (scenarioSource.map (fun v => v.name)).Nodup ∧
    (migrateOrgToOrg scenarioConfigDry trivialSourceClient orgStateClient
        scenarioSource scenarioTarget).2.2 = [] ∧
    (migrateOrgToOrg scenarioConfigDry trivialSourceClient orgStateClient
        scenarioSource scenarioTarget).1 = scenarioTarget ∧
    (migrateOrgToOrg scenarioConfigDry trivialSourceClient orgStateClient
        scenarioSource scenarioTarget).2.1 =
      (migrateOrgToOrg scenarioConfig trivialSourceClient orgStateClient
        scenarioSource scenarioTarget).2.1 := by
  have hnd : (scenarioSource.map (fun v => v.name)).Nodup := by decide
  have h := c4_dry_run_purity.1 scenarioConfig trivialSourceClient scenarioSource
    scenarioTarget hnd
  have hdry : ({ scenarioConfig with dryRun := true } : MigrationConfig) = scenarioConfigDry := by
    decide
  have hwet : ({ scenarioConfig with dryRun := false } : MigrationConfig) = scenarioConfig := by
    decide
  rw [hdry, hwet] at h
  exact ⟨hnd, h⟩

/-- C1: a source organization variable with selected visibility and zero
repository name matches in the target organization is still written with
an explicitly empty repository selection: when it is absent from the
target it is created, counted as created and not skipped, and when it is
present and force is on it is updated; in both cases the written variable
keeps visibility selected (not all) and carries an empty repository
list. -/
theorem c1_selected_zero_matches_not_skipped :
    ∀ (cfg : MigrationConfig) (src : SourceOrgClient) (st : OrgState) (v : Variable)
      (repos : List Repo),
    cfg.dryRun = false →
    v.visibility = "selected" →
    src.listOrgVariableSelectedRepos cfg.sourceOrg v.name = .ok repos →
    (∀ rp ∈ repos, findRepo st.repos rp.name = none) →
    (findVariable st.vars v.name = none →
      (migrateOrgToOrg cfg src orgStateClient [v] st).2.1 =
        { created := 1, updated := 0, skipped := 0, errors := [] } ∧
      (migrateOrgToOrg cfg src orgStateClient [v] st).2.2 =
        [WriteCall.createOrgVar cfg.targetOrg { v with selectedRepositoryIDs := [] }] ∧
      ({ v with selectedRepositoryIDs := ([] : List Int) }).visibility = "selected" ∧
      ({ v with selectedRepositoryIDs := ([] : List Int) }).visibility ≠ "all") ∧
    (∀ w0, findVariable st.vars v.name = some w0 → cfg.force = true →
      (migrateOrgToOrg cfg src orgStateClient [v] st).2.1 =
        { created := 0, updated := 1, skipped := 0, errors := [] } ∧
      (migrateOrgToOrg cfg src orgStateClient [v] st).2.2 =
        [WriteCall.updateOrgVar cfg.targetOrg { v with selectedRepositoryIDs := [] }]) := by
  intro cfg src st v repos hd hv hlist hmatch
  have hres : resolveSelectedRepos cfg src orgStateClient st v.name = .ok [] := by
    simp only [resolveSelectedRepos, hlist]
    congr 1
    rw [List.filterMap_eq_nil_iff]
    intro rp hrp
    simp [orgStateClient, hmatch rp hrp]
  have hprep : prepareOrgVariable cfg src orgStateClient st v =
      { v with selectedRepositoryIDs := [] } := by
    simp [prepareOrgVariable, hv, hres]
  constructor
  · intro hnone
    have hstep : migrateOrgVariable cfg orgStateClient
        { v with selectedRepositoryIDs := ([] : List Int) } st
        ({} : MigrationResult) =
        ({ st with vars := st.vars ++ [orgVariableBody { v with selectedRepositoryIDs := [] }] },
          { created := 1, updated := 0, skipped := 0, errors := [] },
          [WriteCall.createOrgVar cfg.targetOrg { v with selectedRepositoryIDs := [] }], none) := by
      simp [migrateOrgVariable, orgStateClient, hnone, hd]
    refine ⟨?_, ?_, by simp [hv], by simp [hv]⟩ <;>
      simp [migrateOrgToOrg, migrateOrgToOrgAux, hprep, hstep]
  · intro w0 hsome hf
    have hstep : migrateOrgVariable cfg orgStateClient
        { v with selectedRepositoryIDs := ([] : List Int) } st
        ({} : MigrationResult) =
        ({ st with vars := st.vars.map (fun u =>
            if u.name == ({ v with selectedRepositoryIDs := ([] : List Int) } : Variable).name
            then orgVariableBody { v with selectedRepositoryIDs := [] } else u) },
          { created := 0, updated := 1, skipped := 0, errors := [] },
          [WriteCall.updateOrgVar cfg.targetOrg { v with selectedRepositoryIDs := [] }], none) := by
      simp [migrateOrgVariable, orgStateClient, hsome, hd, hf]
    constructor <;> simp [migrateOrgToOrg, migrateOrgToOrgAux, hprep, hstep]

/-- Witness for C1 on a concrete selected-visibility variable whose one
selected repository has no name match in the target. -/
theorem c1_selected_zero_matches_not_skipped_witness :
    (migrateOrgToOrg scenarioConfig selectedSourceClient orgStateClient
        [selectedVar] scenarioTarget).2.1 =
      { created := 1, updated := 0, skipped := 0, errors := [] } ∧
    (migrateOrgToOrg scenarioConfig selectedSourceClient orgStateClient
        [selectedVar] scenarioTarget).2.2 =
      [WriteCall.createOrgVar scenarioConfig.targetOrg
        { selectedVar with selectedRepositoryIDs := [] }] ∧
    ({ selectedVar with selectedRepositoryIDs := ([] : List Int) }).visibility = "selected" ∧
    ({ selectedVar with selectedRepositoryIDs := ([] : List Int) }).visibility ≠ "all" :=
  (c1_selected_zero_matches_not_skipped scenarioConfig selectedSourceClient scenarioTarget
      selectedVar [{ id := 11, name := "missing-repo" }] rfl rfl rfl (by decide)).1 (by decide)

end GhVarsMigrator
